import Mathlib

/-
Verification of the reminder-due-date evaluation and notification-dispatch
engine of the memorykeeperreplit repository.

The TypeScript source manipulates calendar dates through JavaScript `Date`
objects constructed from local year/month/day components
(`new Date(year, month - 1, day)`, `date.setDate(k)`, and component accessors
`getFullYear`/`getMonth`/`getDate`).  For the purposes of the cron logic only
the calendar-day value of such an object is ever observed, so a JS `Date` is
modelled by its (proleptic Gregorian) year/month/day components `CalDate`,
with `daysFromCivil`/`civilFromDays` converting between components and a
day number (days since 1970-01-01), exactly the arithmetic ECMAScript's
`MakeDay`/`YearFromTime` etc. perform.  All divisions below are by positive
constants, so Lean's `Int` division (Euclidean) coincides with the floor
division used by ECMAScript.
-/

@[ext]
structure CalDate where
  year : Int
  month : Int
  day : Int
deriving DecidableEq

/-- Day count from the start of a 400-year era to the start of shifted
(March-based) year `w` of the era. -/
def startOfYoe (w : Int) : Int := 365 * w + w / 4 - w / 100

/-- Year-of-era of a day-of-era: first guess `doe / 366`, corrected upward by
one step when the guess's successor year already started. -/
def yoeOf (doe : Int) : Int :=
  if doe / 366 ≤ 398 ∧ startOfYoe (doe / 366 + 1) ≤ doe then doe / 366 + 1 else doe / 366

/-- Day number (days since 1970-01-01) of a civil calendar date. -/
def daysFromCivil (y m d : Int) : Int :=
  let yy := if m ≤ 2 then y - 1 else y
  let era := yy / 400
  let yoe := yy - era * 400
  let mp := (m + 9) % 12
  let doy := (153 * mp + 2) / 5 + d - 1
  let doe := startOfYoe yoe + doy
  era * 146097 + doe - 719468

/-- Civil calendar date of a day number. -/
def civilFromDays (z : Int) : CalDate :=
  let z' := z + 719468
  let era := z' / 146097
  let doe := z' - era * 146097
  let yoe := yoeOf doe
  let y := yoe + era * 400
  let doy := doe - startOfYoe yoe
  let mp := (5 * doy + 2) / 153
  let d := doy - (153 * mp + 2) / 5 + 1
  let m := if mp < 10 then mp + 3 else mp - 9
  ⟨if m ≤ 2 then y + 1 else y, m, d⟩

def isLeapYear (y : Int) : Prop := (y % 4 = 0 ∧ y % 100 ≠ 0) ∨ y % 400 = 0

instance (y : Int) : Decidable (isLeapYear y) := by
  unfold isLeapYear; infer_instance

def daysInMonth (y m : Int) : Int :=
  if m = 2 then (if isLeapYear y then 29 else 28)
  else if m = 4 ∨ m = 6 ∨ m = 9 ∨ m = 11 then 30 else 31

/-- A well-formed calendar date: month and day-of-month in range. -/
def CalDate.Valid (dt : CalDate) : Prop :=
  1 ≤ dt.month ∧ dt.month ≤ 12 ∧ 1 ≤ dt.day ∧ dt.day ≤ daysInMonth dt.year dt.month

instance (dt : CalDate) : Decidable dt.Valid := by
  unfold CalDate.Valid; infer_instance

/-- Day number of a `CalDate` (JS `Date` value observed at day granularity). -/
def dayNumber (dt : CalDate) : Int := daysFromCivil dt.year dt.month dt.day

/-- Models JS `new Date(y, m - 1, d)`: the month index is floor-normalised
into the year, then the (possibly out-of-range) day offsets from day 1. -/
def mkJSDate (y m d : Int) : CalDate :=
  civilFromDays (daysFromCivil (y + (m - 1) / 12) ((m - 1) % 12 + 1) 1 + (d - 1))

/-- Models JS `date.setDate(k)`: re-anchor to day `k` of the date's current
month, rolling over month/year boundaries. -/
def jsSetDate (dt : CalDate) (k : Int) : CalDate :=
  civilFromDays (daysFromCivil dt.year dt.month 1 + (k - 1))

/-- `CronJobService.isSameDay` (src/server/cronJobs.ts): compares
`getFullYear`, `getMonth` and `getDate` of the two dates. -/
def isSameDay (date1 date2 : CalDate) : Bool :=
  date1.year == date2.year && date1.month == date2.month && date1.day == date2.day

/- ------------------------------------------------------------------ -/
/- Data model (shared/schema.ts: people, reminders, users)            -/
/- ------------------------------------------------------------------ -/

structure Person where
  fullName : String
  relationship : Option String
  birthYear : Option Int
  notes : Option String
deriving DecidableEq

/-- A reminder row joined with its optional person
(`ReminderWithPerson`).  `reminderDate` holds the year/month/day numbers
produced by `reminder.reminderDate.split('-').map(Number)` on the stored
`YYYY-MM-DD` string. -/
structure Reminder where
  id : Int
  userId : String
  personId : Option Int
  type : String
  title : String
  description : Option String
  reminderDate : CalDate
  advanceDays : Option Int
  isRecurring : Bool
  isActive : Bool
  person : Option Person
deriving DecidableEq

structure User where
  id : String
  email : Option String
  notificationEmails : Option (List String)
deriving DecidableEq

/-- An `email_notifications` audit row as created by
`storage.createEmailNotification` (the rendered body is not modelled; no
verified property concerns it). -/
structure EmailNotification where
  userId : String
  reminderId : Int
  emailAddress : String
  subject : String
  status : String
deriving DecidableEq

/- ------------------------------------------------------------------ -/
/- Storage (DatabaseStorage.getDueReminders)                          -/
/- ------------------------------------------------------------------ -/

/-- Calendar-date `<=` as Postgres evaluates `lte(reminders.reminderDate,
today)` on a DATE column; on dates rendered as zero-padded `YYYY-MM-DD`
strings this is also exactly the lexicographic string order. -/
def dateLe (a b : CalDate) : Bool :=
  decide (a.year < b.year ∨ (a.year = b.year ∧
    (a.month < b.month ∨ (a.month = b.month ∧ a.day ≤ b.day))))

/-- `DatabaseStorage.getDueReminders`: all active reminders whose stored
`reminderDate` is on or before today's date. -/
def getDueReminders (today : CalDate) (reminders : List Reminder) : List Reminder :=
  reminders.filter (fun r => r.isActive && dateLe r.reminderDate today)

/- ------------------------------------------------------------------ -/
/- EmailService (src/server/emailService.ts)                          -/
/- ------------------------------------------------------------------ -/

/-- `EmailService.generateSubject`. -/
def generateSubject (reminder : Reminder) : String :=
  let personName := match reminder.person with
    | some p => p.fullName
    | none => "Someone"
  match reminder.type with
  | "birthday" =>
      "🎂 " ++ personName ++ "'s Birthday " ++
        (match reminder.advanceDays with
         | some n => if 0 < n then "in " ++ toString n ++ " days" else "is today"
         | none => "is today") ++ "!"
  | "custom" => "🔔 Reminder: " ++ reminder.title
  | _ => "📅 Reminder: " ++ reminder.title

/-- Recipient resolution at the top of `sendReminderEmail`:
`user.notificationEmails` when non-empty, else `[user.email].filter(Boolean)`
(JS `Boolean` drops a null or empty email). -/
def emailAddressesFor (user : User) : List String :=
  let fallback : List String := match user.email with
    | some e => if e = "" then [] else [e]
    | none => []
  match user.notificationEmails with
  | some l => if 0 < l.length then l else fallback
  | none => fallback

/-- Result of one `sendReminderEmail` call: the recipients on which
`transporter.sendMail` was invoked (in order), and the audit entries passed
to `storage.createEmailNotification`.  The send capability
`cap : String → Bool` reports whether `sendMail` resolves (`true`) or
throws (`false`). -/
structure DispatchResult where
  attempted : List String
  entries : List EmailNotification
deriving DecidableEq

/-- The `for (const email of ...)` send loop of `sendReminderEmail`.  The
surrounding `try`/`catch` wraps the WHOLE loop, so the first recipient whose
send throws ends the loop and the `catch` block appends a single `failed`
entry addressed to `user.email || ''`. -/
def sendLoop (cap : String → Bool) (user : User) (reminder : Reminder)
    (subject : String) : List String → DispatchResult
  | [] => ⟨[], []⟩
  | e :: rest =>
    if cap e then
      let res := sendLoop cap user reminder subject rest
      ⟨e :: res.attempted,
       ⟨user.id, reminder.id, e, subject, "sent"⟩ :: res.entries⟩
    else
      ⟨[e], [⟨user.id, reminder.id,
              (match user.email with | some e0 => e0 | none => ""),
              subject, "failed"⟩]⟩

/-- `EmailService.sendReminderEmail` (src/server/emailService.ts lines
46-95): resolve recipients, return early when none, then send to each
recipient in turn, logging a `sent` entry per success; any throw is caught
once for the whole call and logged as a single `failed` entry. -/
def sendReminderEmail (cap : String → Bool) (user : User)
    (reminder : Reminder) : DispatchResult :=
  if (emailAddressesFor user).length = 0 then ⟨[], []⟩
  else sendLoop cap user reminder (generateSubject reminder)
    ((emailAddressesFor user).filter (fun e => !(e == "")))

/-- The `sendReminderEmail` variant bundled in src/server/cronJobs.ts
(lines 105-181 of that file), which additionally checks
`process.env.SMTP_USER && process.env.SMTP_PASS` (`hasSmtpConfig`): when
unconfigured it performs no transport call and logs one `simulated` entry
per recipient (the simulated loop iterates the unfiltered address list). -/
def sendReminderEmailDebug (hasSmtpConfig : Bool) (cap : String → Bool)
    (user : User) (reminder : Reminder) : DispatchResult :=
  if (emailAddressesFor user).length = 0 then ⟨[], []⟩
  else if !hasSmtpConfig then
    ⟨[], (emailAddressesFor user).map (fun e =>
      ⟨user.id, reminder.id, e, generateSubject reminder, "simulated"⟩)⟩
  else sendLoop cap user reminder (generateSubject reminder)
    ((emailAddressesFor user).filter (fun e => !(e == "")))

/- ------------------------------------------------------------------ -/
/- CronJobService.checkAndSendAllReminders (src/server/cronJobs.ts)    -/
/- ------------------------------------------------------------------ -/

inductive FiringDecision where
  | noFire
  | onDate
  | advanceNotice
deriving DecidableEq

/-- `new Date(year, month - 1, day)` applied to the split components of the
stored reminder date (cronJobs.ts lines 34-35). -/
def parsedReminderDate (reminder : Reminder) : CalDate :=
  mkJSDate reminder.reminderDate.year reminder.reminderDate.month reminder.reminderDate.day

/-- The per-reminder decision of `checkAndSendAllReminders` (lines 36-54):
`emailType` ends as `'advance'` when the advance-day check matches (it is
evaluated second and overwrites `'due'`), as `'due'` when only the same-day
check matches, and the reminder is skipped otherwise. -/
def advanceCond (reminder : Reminder) (today : CalDate) : Bool :=
  match reminder.advanceDays with
  | some n =>
      if 0 < n then
        isSameDay today
          (jsSetDate (parsedReminderDate reminder) ((parsedReminderDate reminder).day - n))
      else false
  | none => false

def evaluate (reminder : Reminder) (today : CalDate) : FiringDecision :=
  if advanceCond reminder today then .advanceNotice
  else if isSameDay today (parsedReminderDate reminder) then .onDate
  else .noFire

def shouldSend (reminder : Reminder) (today : CalDate) : Bool :=
  !(evaluate reminder today == .noFire)

/-- `checkAndSendAllReminders`: fetch the due reminders, and for each one
resolve the owner (skipping unknown owners), evaluate it against today and,
when due, dispatch via `emailService.sendReminderEmail`; the returned list
collects every audit entry created during the tick. -/
def checkAndSendAllReminders (cap : String → Bool) (today : CalDate)
    (reminders : List Reminder) (users : String → Option User) :
    List EmailNotification :=
  (getDueReminders today reminders).foldr
    (fun r acc =>
      (match users r.userId with
       | none => []
       | some user =>
          if shouldSend r today then (sendReminderEmail cap user r).entries
          else []) ++ acc) []

/-- `CronJobService.testReminders` simply invokes
`checkAndSendAllReminders`. -/
def testReminders (cap : String → Bool) (today : CalDate)
    (reminders : List Reminder) (users : String → Option User) :
    List EmailNotification :=
  checkAndSendAllReminders cap today reminders users

/-- The daily 5 AM cron trigger runs `checkAndSendAllReminders`
unconditionally. -/
def scheduledDailyTick (cap : String → Bool) (today : CalDate)
    (reminders : List Reminder) (users : String → Option User) :
    List EmailNotification :=
  checkAndSendAllReminders cap today reminders users

/-- The `POST /api/test-reminders` route (src/server/routes.ts lines
308-328): when SMTP credentials are missing it responds and RETURNS without
invoking the reminder check; otherwise it runs
`cronJobService.testReminders()`.  `none` models the early return. -/
def testRemindersEndpoint (hasSmtpConfig : Bool) (cap : String → Bool)
    (today : CalDate) (reminders : List Reminder)
    (users : String → Option User) : Option (List EmailNotification) :=
  if hasSmtpConfig then some (testReminders cap today reminders users) else none

/- ------------------------------------------------------------------ -/
/- Concrete sample data used by counterexamples and witnesses          -/
/- ------------------------------------------------------------------ -/

def sampleReminder (dt : CalDate) (adv : Option Int) (recur : Bool) : Reminder :=
  { id := 1, userId := "u1", personId := none, type := "birthday",
    title := "Birthday", description := none, reminderDate := dt,
    advanceDays := adv, isRecurring := recur, isActive := true, person := none }

def recurringBirthday1990 : Reminder := sampleReminder ⟨1990, 3, 10⟩ none true

def leapDayReminder : Reminder := sampleReminder ⟨2000, 2, 29⟩ none true

def exactReminder2025 : Reminder := sampleReminder ⟨2025, 7, 13⟩ none false

def advanceReminder2025 : Reminder := sampleReminder ⟨2025, 3, 10⟩ (some 3) true

def advanceReminder1990 : Reminder := sampleReminder ⟨1990, 3, 10⟩ (some 3) true

def month13Reminder : Reminder := sampleReminder ⟨2025, 13, 1⟩ none false

def futureReminder : Reminder := sampleReminder ⟨2025, 12, 25⟩ (some 3) false

def twoRecipientUser : User :=
  { id := "u1", email := some "owner@example.com",
    notificationEmails := some ["a@example.com", "b@example.com"] }

def failOnA : String → Bool := fun e => !(e == "a@example.com")

def alwaysOkCap : String → Bool := fun _ => true

def singleUserLookup : String → Option User := fun _ => some twoRecipientUser

/- ------------------------------------------------------------------ -/
/- Calendar arithmetic lemmas                                          -/
/- ------------------------------------------------------------------ -/

theorem yoeOf_spec (doe : Int) (h1 : 0 ≤ doe) (h2 : doe ≤ 146096) :
    0 ≤ yoeOf doe ∧ yoeOf doe ≤ 399 ∧ startOfYoe (yoeOf doe) ≤ doe ∧
    doe - startOfYoe (yoeOf doe) ≤ 365 ∧
    (doe - startOfYoe (yoeOf doe) = 365 →
      (yoeOf doe + 1) % 4 = 0 ∧ ((yoeOf doe + 1) % 100 ≠ 0 ∨ yoeOf doe = 399)) := by
  have ha : doe / 366 ≤ 399 := by omega
  have hb : doe / 366 / 4 ≤ (doe / 366 + 1) / 4 :=
    Int.ediv_le_ediv (by norm_num) (by omega)
  have hb' : (doe / 366 + 1) / 4 ≤ (doe / 366 + 4) / 4 :=
    Int.ediv_le_ediv (by norm_num) (by omega)
  have hb'' : (doe / 366 + 1 * 4) / 4 = doe / 366 / 4 + 1 :=
    Int.add_mul_ediv_right _ _ (by norm_num)
  have hc : doe / 366 / 100 ≤ (doe / 366 + 1) / 100 :=
    Int.ediv_le_ediv (by norm_num) (by omega)
  have hc' : (doe / 366 + 1) / 100 ≤ (doe / 366 + 100) / 100 :=
    Int.ediv_le_ediv (by norm_num) (by omega)
  have hc'' : (doe / 366 + 1 * 100) / 100 = doe / 366 / 100 + 1 :=
    Int.add_mul_ediv_right _ _ (by norm_num)
  unfold yoeOf startOfYoe
  split <;> omega

theorem yoeOf_eq (w doe : Int) (hw0 : 0 ≤ w) (hw1 : w ≤ 399) (hdoe : 0 ≤ doe)
    (h1 : startOfYoe w ≤ doe)
    (h2 : doe < startOfYoe (w + 1) ∨ (w = 399 ∧ doe ≤ 146096)) : yoeOf doe = w := by
  rcases le_or_lt w (doe / 366) with hle | hgt
  · have h4 : (w + 1) / 4 ≤ (doe / 366 + 1) / 4 :=
      Int.ediv_le_ediv (by norm_num) (by omega)
    have h100 : (w + 1) / 100 ≤ (doe / 366 + 1) / 100 :=
      Int.ediv_le_ediv (by norm_num) (by omega)
    unfold yoeOf startOfYoe at *
    split <;> omega
  · unfold yoeOf startOfYoe at *
    split <;> omega

theorem daysFromCivil_shifted (era w mp d : Int) (hw0 : 0 ≤ w) (hw1 : w ≤ 399)
    (hmp0 : 0 ≤ mp) (hmp1 : mp ≤ 11) :
    daysFromCivil
      (if (if mp < 10 then mp + 3 else mp - 9) ≤ 2 then w + era * 400 + 1 else w + era * 400)
      (if mp < 10 then mp + 3 else mp - 9) d
    = era * 146097 + (startOfYoe w + ((153 * mp + 2) / 5 + d - 1)) - 719468 := by
  simp only [daysFromCivil]
  unfold startOfYoe
  split <;> split <;> omega

theorem daysFromCivil_civilFromDays (z : Int) :
    daysFromCivil (civilFromDays z).year (civilFromDays z).month (civilFromDays z).day = z := by
  have h0 : 0 ≤ z + 719468 - (z + 719468) / 146097 * 146097 := by omega
  have h1 : z + 719468 - (z + 719468) / 146097 * 146097 ≤ 146096 := by omega
  have hs := yoeOf_spec (z + 719468 - (z + 719468) / 146097 * 146097) h0 h1
  simp only [civilFromDays]
  rw [daysFromCivil_shifted]
  · omega
  · exact hs.1
  · exact hs.2.1
  · omega
  · omega

def yearStartDays (t : Int) : Int := 365 * t + t / 4 - t / 100 + t / 400 - 719468

theorem yearStartDays_mono (t1 t2 : Int) (h : t1 ≤ t2) : yearStartDays t1 ≤ yearStartDays t2 := by
  have h4 : t1 / 4 ≤ t2 / 4 := Int.ediv_le_ediv (by norm_num) h
  have h400 : t1 / 400 ≤ t2 / 400 := Int.ediv_le_ediv (by norm_num) h
  unfold yearStartDays
  omega

theorem daysFromCivil_global (y m d : Int) :
    daysFromCivil y m d =
      365 * (if m ≤ 2 then y - 1 else y) + (if m ≤ 2 then y - 1 else y) / 4 -
        (if m ≤ 2 then y - 1 else y) / 100 + (if m ≤ 2 then y - 1 else y) / 400 +
        (153 * ((m + 9) % 12) + 2) / 5 + d - 1 - 719468 := by
  simp only [daysFromCivil]
  unfold startOfYoe
  split <;> omega

theorem day_fits_in_month (y m d : Int) (hm1 : 1 ≤ m) (hm2 : m ≤ 12) (hd' : d ≤ daysInMonth y m) :
    (153 * ((m + 9) % 12) + 2) / 5 + d - 1 < (153 * ((m + 9) % 12 + 1) + 2) / 5 ∨
      ((m + 9) % 12 = 11 ∧ d ≤ 29) := by
  unfold daysInMonth at hd'
  interval_cases m <;> split_ifs at hd' <;> omega

theorem daysFromCivil_lt_next_year_start (y m d : Int) (hm1 : 1 ≤ m) (hm2 : m ≤ 12)
    (hd' : d ≤ daysInMonth y m) :
    daysFromCivil y m d < yearStartDays ((if m ≤ 2 then y - 1 else y) + 1) := by
  rw [daysFromCivil_global]
  unfold daysInMonth isLeapYear at hd'
  unfold yearStartDays
  interval_cases m <;> split_ifs at hd' ⊢ <;> omega

theorem yearStart_le_daysFromCivil (y m d : Int) (hm1 : 1 ≤ m) (hm2 : m ≤ 12) (hd : 1 ≤ d) :
    yearStartDays (if m ≤ 2 then y - 1 else y) ≤ daysFromCivil y m d := by
  rw [daysFromCivil_global]
  unfold yearStartDays
  split <;> omega

theorem daysFromCivil_lt (y1 m1 d1 y2 m2 d2 : Int)
    (hm1 : 1 ≤ m1) (hm1' : m1 ≤ 12) (hd1 : 1 ≤ d1) (hd1' : d1 ≤ daysInMonth y1 m1)
    (hm2 : 1 ≤ m2) (hm2' : m2 ≤ 12) (hd2 : 1 ≤ d2) (hd2' : d2 ≤ daysInMonth y2 m2)
    (hlt : y1 < y2 ∨ (y1 = y2 ∧ (m1 < m2 ∨ (m1 = m2 ∧ d1 < d2)))) :
    daysFromCivil y1 m1 d1 < daysFromCivil y2 m2 d2 := by
  rcases le_or_lt ((if m1 ≤ 2 then y1 - 1 else y1) + 1) (if m2 ≤ 2 then y2 - 1 else y2) with hyy | hyy
  · calc daysFromCivil y1 m1 d1
        < yearStartDays ((if m1 ≤ 2 then y1 - 1 else y1) + 1) :=
          daysFromCivil_lt_next_year_start y1 m1 d1 hm1 hm1' hd1'
      _ ≤ yearStartDays (if m2 ≤ 2 then y2 - 1 else y2) := yearStartDays_mono _ _ hyy
      _ ≤ daysFromCivil y2 m2 d2 := yearStart_le_daysFromCivil y2 m2 d2 hm2 hm2' hd2
  · have hfit := day_fits_in_month y1 m1 d1 hm1 hm1' hd1'
    have hoff : ∀ a b : Int, a ≤ b → (153 * a + 2) / 5 ≤ (153 * b + 2) / 5 := by
      intro a b hab
      exact Int.ediv_le_ediv (by norm_num) (by omega)
    have hyy' : (if m2 ≤ 2 then y2 - 1 else y2) ≤ (if m1 ≤ 2 then y1 - 1 else y1) := by omega
    have hmp : (m1 + 9) % 12 < (m2 + 9) % 12 ∨ ((m1 + 9) % 12 = (m2 + 9) % 12 ∧ d1 < d2) := by
      split_ifs at hyy hyy' <;> omega
    rcases hmp with hmp | ⟨hmp, hdd⟩
    · have h2 := hoff ((m1 + 9) % 12 + 1) ((m2 + 9) % 12) (by omega)
      rw [daysFromCivil_global y1 m1 d1, daysFromCivil_global y2 m2 d2]
      split_ifs at hyy hyy' ⊢ <;> omega
    · rw [daysFromCivil_global y1 m1 d1, daysFromCivil_global y2 m2 d2]
      rw [hmp]
      split_ifs at hyy hyy' ⊢ <;> omega

theorem civilFromDays_valid (z : Int) : (civilFromDays z).Valid := by
  have h0 : 0 ≤ z + 719468 - (z + 719468) / 146097 * 146097 := by omega
  have h1 : z + 719468 - (z + 719468) / 146097 * 146097 ≤ 146096 := by omega
  have hs := yoeOf_spec (z + 719468 - (z + 719468) / 146097 * 146097) h0 h1
  simp only [civilFromDays, CalDate.Valid]
  unfold daysInMonth isLeapYear
  split_ifs <;> omega

theorem daysFromCivil_injOn (y1 m1 d1 y2 m2 d2 : Int)
    (hm1 : 1 ≤ m1) (hm1' : m1 ≤ 12) (hd1 : 1 ≤ d1) (hd1' : d1 ≤ daysInMonth y1 m1)
    (hm2 : 1 ≤ m2) (hm2' : m2 ≤ 12) (hd2 : 1 ≤ d2) (hd2' : d2 ≤ daysInMonth y2 m2)
    (hF : daysFromCivil y1 m1 d1 = daysFromCivil y2 m2 d2) :
    y1 = y2 ∧ m1 = m2 ∧ d1 = d2 := by
  rcases lt_trichotomy y1 y2 with h | h | h
  · have := daysFromCivil_lt y1 m1 d1 y2 m2 d2 hm1 hm1' hd1 hd1' hm2 hm2' hd2 hd2' (Or.inl h)
    omega
  · rcases lt_trichotomy m1 m2 with h2 | h2 | h2
    · have := daysFromCivil_lt y1 m1 d1 y2 m2 d2 hm1 hm1' hd1 hd1' hm2 hm2' hd2 hd2'
        (Or.inr ⟨h, Or.inl h2⟩)
      omega
    · rcases lt_trichotomy d1 d2 with h3 | h3 | h3
      · have := daysFromCivil_lt y1 m1 d1 y2 m2 d2 hm1 hm1' hd1 hd1' hm2 hm2' hd2 hd2'
          (Or.inr ⟨h, Or.inr ⟨h2, h3⟩⟩)
        omega
      · exact ⟨h, h2, h3⟩
      · have := daysFromCivil_lt y2 m2 d2 y1 m1 d1 hm2 hm2' hd2 hd2' hm1 hm1' hd1 hd1'
          (Or.inr ⟨h.symm, Or.inr ⟨h2.symm, h3⟩⟩)
        omega
    · have := daysFromCivil_lt y2 m2 d2 y1 m1 d1 hm2 hm2' hd2 hd2' hm1 hm1' hd1 hd1'
        (Or.inr ⟨h.symm, Or.inl h2⟩)
      omega
  · have := daysFromCivil_lt y2 m2 d2 y1 m1 d1 hm2 hm2' hd2 hd2' hm1 hm1' hd1 hd1' (Or.inl h)
    omega

theorem civilFromDays_daysFromCivil (y m d : Int)
    (hm1 : 1 ≤ m) (hm2 : m ≤ 12) (hd1 : 1 ≤ d) (hd2 : d ≤ daysInMonth y m) :
    civilFromDays (daysFromCivil y m d) = ⟨y, m, d⟩ := by
  have hv := civilFromDays_valid (daysFromCivil y m d)
  have hF := daysFromCivil_civilFromDays (daysFromCivil y m d)
  have hinj := daysFromCivil_injOn (civilFromDays (daysFromCivil y m d)).year
    (civilFromDays (daysFromCivil y m d)).month (civilFromDays (daysFromCivil y m d)).day
    y m d hv.1 hv.2.1 hv.2.2.1 hv.2.2.2 hm1 hm2 hd1 hd2 hF
  obtain ⟨e1, e2, e3⟩ := hinj
  cases h : civilFromDays (daysFromCivil y m d)
  simp_all

/- ------------------------------------------------------------------ -/
/- Bridge lemmas                                                      -/
/- ------------------------------------------------------------------ -/

theorem civilFromDays_inj (z1 z2 : Int) (h : civilFromDays z1 = civilFromDays z2) :
    z1 = z2 := by
  have h1 := daysFromCivil_civilFromDays z1
  rw [h] at h1
  rw [daysFromCivil_civilFromDays z2] at h1
  exact h1.symm

theorem daysFromCivil_day_linear (y m d : Int) :
    daysFromCivil y m d = daysFromCivil y m 1 + (d - 1) := by
  rw [daysFromCivil_global y m d, daysFromCivil_global y m 1]
  omega

theorem mkJSDate_valid (y m d : Int) (hm1 : 1 ≤ m) (hm2 : m ≤ 12) (hd1 : 1 ≤ d)
    (hd2 : d ≤ daysInMonth y m) : mkJSDate y m d = ⟨y, m, d⟩ := by
  unfold mkJSDate
  have h1 : (m - 1) / 12 = 0 := by omega
  have h2 : (m - 1) % 12 = m - 1 := by omega
  rw [h1, h2]
  have h3 : y + 0 = y := by omega
  have h4 : m - 1 + 1 = m := by omega
  rw [h3, h4, ← daysFromCivil_day_linear]
  exact civilFromDays_daysFromCivil y m d hm1 hm2 hd1 hd2

theorem mkJSDate_valid' (dt : CalDate) (h : dt.Valid) :
    mkJSDate dt.year dt.month dt.day = dt := by
  obtain ⟨h1, h2, h3, h4⟩ := h
  cases dt
  exact mkJSDate_valid _ _ _ h1 h2 h3 h4

theorem civilFromDays_dayNumber (dt : CalDate) (h : dt.Valid) :
    civilFromDays (dayNumber dt) = dt := by
  obtain ⟨h1, h2, h3, h4⟩ := h
  cases dt
  exact civilFromDays_daysFromCivil _ _ _ h1 h2 h3 h4

theorem dayNumber_civilFromDays (z : Int) : dayNumber (civilFromDays z) = z :=
  daysFromCivil_civilFromDays z

theorem isSameDay_iff (a b : CalDate) : isSameDay a b = true ↔ a = b := by
  cases a
  cases b
  simp [isSameDay, CalDate.mk.injEq, and_assoc]

theorem jsSetDate_sub (dt : CalDate) (n : Int) :
    jsSetDate dt (dt.day - n) = civilFromDays (dayNumber dt - n) := by
  unfold jsSetDate dayNumber
  have h := daysFromCivil_day_linear dt.year dt.month dt.day
  have h2 : daysFromCivil dt.year dt.month 1 + (dt.day - n - 1) =
      daysFromCivil dt.year dt.month dt.day - n := by omega
  rw [h2]

theorem parsedReminderDate_valid (r : Reminder) (h : r.reminderDate.Valid) :
    parsedReminderDate r = r.reminderDate := by
  unfold parsedReminderDate
  exact mkJSDate_valid' r.reminderDate h

/-- The advance-notice condition of `checkAndSendAllReminders` holds exactly
when today's day number is `n` days before the (parsed) reminder date's. -/
theorem advance_cond_iff (r : Reminder) (today : CalDate) (n : Int)
    (hA : r.reminderDate.Valid) (hT : today.Valid) :
    isSameDay today
        (jsSetDate (parsedReminderDate r) ((parsedReminderDate r).day - n)) = true ↔
      dayNumber today + n = dayNumber r.reminderDate := by
  rw [parsedReminderDate_valid r hA, jsSetDate_sub, isSameDay_iff]
  constructor
  · intro h
    have := congrArg dayNumber h
    rw [dayNumber_civilFromDays] at this
    omega
  · intro h
    rw [← civilFromDays_dayNumber today hT]
    congr 1
    omega

/-- The same-day condition of `checkAndSendAllReminders` holds exactly when
today equals the stored reminder date componentwise. -/
theorem due_cond_iff (r : Reminder) (today : CalDate) (hA : r.reminderDate.Valid) :
    isSameDay today (parsedReminderDate r) = true ↔ today = r.reminderDate := by
  rw [parsedReminderDate_valid r hA, isSameDay_iff]

theorem advanceCond_iff (r : Reminder) (today : CalDate) (n : Int)
    (hn : r.advanceDays = some n) (hpos : 0 < n)
    (hA : r.reminderDate.Valid) (hT : today.Valid) :
    advanceCond r today = true ↔ dayNumber today + n = dayNumber r.reminderDate := by
  unfold advanceCond
  rw [hn]
  simp only [if_pos hpos]
  exact advance_cond_iff r today n hA hT

theorem evaluate_advance_iff (r : Reminder) (today : CalDate) (n : Int)
    (hn : r.advanceDays = some n) (hpos : 0 < n)
    (hA : r.reminderDate.Valid) (hT : today.Valid) :
    evaluate r today = .advanceNotice ↔
      dayNumber today + n = dayNumber r.reminderDate := by
  rw [← advanceCond_iff r today n hn hpos hA hT]
  unfold evaluate
  by_cases hadv : advanceCond r today = true
  · simp [hadv]
  · simp only [Bool.not_eq_true] at hadv
    simp only [hadv, Bool.false_eq_true, if_false]
    constructor
    · intro h
      exfalso
      revert h
      split <;> intro h <;> exact FiringDecision.noConfusion h
    · intro h
      exact absurd h (by simp)

theorem evaluate_onDate_iff (r : Reminder) (today : CalDate)
    (hA : r.reminderDate.Valid) (hT : today.Valid) :
    evaluate r today = .onDate ↔ today = r.reminderDate := by
  unfold evaluate
  constructor
  · intro h
    by_cases hdue : isSameDay today (parsedReminderDate r) = true
    · exact (due_cond_iff r today hA).mp hdue
    · exfalso
      simp only [Bool.not_eq_true] at hdue
      revert h
      split
      · intro h; exact FiringDecision.noConfusion h
      · simp only [hdue, Bool.false_eq_true, if_false]
        intro h; exact FiringDecision.noConfusion h
  · intro h
    have hdue : isSameDay today (parsedReminderDate r) = true :=
      (due_cond_iff r today hA).mpr h
    have hadv : advanceCond r today = false := by
      rw [Bool.eq_false_iff]
      intro hc
      rcases hr : r.advanceDays with _ | n
      · simp only [advanceCond, hr] at hc
        exact Bool.noConfusion hc
      · simp only [advanceCond, hr] at hc
        by_cases hpos : 0 < n
        · rw [if_pos hpos] at hc
          have h1 := (advance_cond_iff r today n hA hT).mp hc
          have h2 := congrArg dayNumber h
          omega
        · rw [if_neg hpos] at hc; exact Bool.noConfusion hc
    simp [hadv, hdue]

/-- Every audit entry produced by `sendReminderEmail` carries the reminder's
id. -/
theorem sendLoop_reminderId (cap : String → Bool) (user : User) (r : Reminder)
    (subject : String) (l : List String) :
    ∀ e ∈ (sendLoop cap user r subject l).entries, e.reminderId = r.id := by
  induction l with
  | nil => intro e he; simp [sendLoop] at he
  | cons a rest ih =>
    intro e he
    by_cases hc : cap a
    · simp only [sendLoop, if_pos hc, List.mem_cons] at he
      rcases he with he | he
      · rw [he]
      · exact ih e he
    · simp only [sendLoop, if_neg hc, List.mem_cons] at he
      rcases he with he | he
      · rw [he]
      · simp at he

theorem sendReminderEmail_reminderId (cap : String → Bool) (user : User) (r : Reminder) :
    ∀ e ∈ (sendReminderEmail cap user r).entries, e.reminderId = r.id := by
  unfold sendReminderEmail
  split
  · intro e he; simp at he
  · exact sendLoop_reminderId cap user r _ _

theorem evaluate_advance_iff_cond (r : Reminder) (today : CalDate) :
    evaluate r today = .advanceNotice ↔ advanceCond r today = true := by
  unfold evaluate
  by_cases h : advanceCond r today = true
  · simp [h]
  · simp only [Bool.not_eq_true] at h
    simp only [h, Bool.false_eq_true, if_false]
    constructor
    · intro hc
      exfalso
      revert hc
      split <;> intro hc <;> exact FiringDecision.noConfusion hc
    · intro hc
      exact absurd hc (by simp)

theorem dayNumber_lt_of_lt (a b : CalDate) (hva : a.Valid) (hvb : b.Valid)
    (h : a.year < b.year ∨ (a.year = b.year ∧
      (a.month < b.month ∨ (a.month = b.month ∧ a.day < b.day)))) :
    dayNumber a < dayNumber b := by
  obtain ⟨ha1, ha2, ha3, ha4⟩ := hva
  obtain ⟨hb1, hb2, hb3, hb4⟩ := hvb
  exact daysFromCivil_lt a.year a.month a.day b.year b.month b.day
    ha1 ha2 ha3 ha4 hb1 hb2 hb3 hb4 h

theorem dayNumber_le_of_dateLe (a b : CalDate) (hva : a.Valid) (hvb : b.Valid)
    (h : dateLe a b = true) : dayNumber a ≤ dayNumber b := by
  unfold dateLe at h
  rw [decide_eq_true_eq] at h
  rcases h with h | ⟨h1, h | ⟨h2, h3⟩⟩
  · exact le_of_lt (dayNumber_lt_of_lt a b hva hvb (Or.inl h))
  · exact le_of_lt (dayNumber_lt_of_lt a b hva hvb (Or.inr ⟨h1, Or.inl h⟩))
  · rcases lt_or_eq_of_le h3 with h3 | h3
    · exact le_of_lt (dayNumber_lt_of_lt a b hva hvb (Or.inr ⟨h1, Or.inr ⟨h2, h3⟩⟩))
    · have : a = b := CalDate.ext h1 h2 h3
      rw [this]

theorem mem_foldr_append {α β : Type} (f : α → List β) (l : List α) (e : β) :
    e ∈ l.foldr (fun r acc => f r ++ acc) [] ↔ ∃ r ∈ l, e ∈ f r := by
  induction l with
  | nil => simp
  | cons a t ih => simp [List.mem_append, ih]

theorem map_status_simulated (uid : String) (rid : Int) (subj : String) (l : List String) :
    (l.map (fun e => (⟨uid, rid, e, subj, "simulated"⟩ : EmailNotification))).map
      (fun e => e.status) = List.replicate l.length "simulated" := by
  induction l with
  | nil => simp
  | cons a t ih => simp [ih, List.replicate]

/- ------------------------------------------------------------------ -/
/- Claims                                                             -/
/- ------------------------------------------------------------------ -/

/-- C1: the claim says a recurring reminder fires `OnDate` whenever today's
month and day match the anchor's, regardless of year.  The code compares the
full year-month-day (`isSameDay` checks `getFullYear` too and `isRecurring`
is never consulted), so the auto-created recurring birthday reminder
anchored at "1990-03-10" does NOT fire on 2025-03-10; it fires only on the
literal anchor date itself. -/
theorem c1_recurring_compares_full_date :
    evaluate recurringBirthday1990 ⟨2025, 3, 10⟩ = FiringDecision.noFire ∧
    evaluate recurringBirthday1990 ⟨1990, 3, 10⟩ = FiringDecision.onDate := by
  decide

/-- C2: the claim demands `AdvanceNotice` exactly `n` days before the
EFFECTIVE occurrence, which for a recurring reminder is the
year-substituted date.  The code performs no year substitution: with the
app's auto-created recurring birthday reminder anchored "1990-03-10" and
`advanceDays = 3`, today = 2025-03-07 is exactly 3 days before the 2025
occurrence, yet the code fires nothing — both its date checks compare the
full year against the literal 1990 anchor, and the advance notice fires
only on 1990-03-07 itself. -/
theorem c2_recurring_advance_never_fires :
    evaluate advanceReminder1990 ⟨2025, 3, 7⟩ = FiringDecision.noFire ∧
    evaluate advanceReminder1990 ⟨1990, 3, 7⟩ = FiringDecision.advanceNotice := by
  decide

/-- C4: for a non-recurring reminder the evaluation returns `OnDate` iff
today equals the stored reminder date in all of year, month and
day-of-month (and on no other day). -/
theorem c4_nonrecurring_on_date_iff (r : Reminder) (today : CalDate)
    (hrec : r.isRecurring = false) (hA : r.reminderDate.Valid) (hT : today.Valid) :
    evaluate r today = .onDate ↔
      (today.year = r.reminderDate.year ∧ today.month = r.reminderDate.month ∧
       today.day = r.reminderDate.day) := by
  rw [evaluate_onDate_iff r today hA hT]
  constructor
  · intro h
    exact ⟨by rw [h], by rw [h], by rw [h]⟩
  · intro ⟨h1, h2, h3⟩
    exact CalDate.ext h1 h2 h3

theorem c4_witness :
    evaluate exactReminder2025 ⟨2025, 7, 13⟩ = FiringDecision.onDate ∧
    evaluate exactReminder2025 ⟨2025, 7, 12⟩ ≠ FiringDecision.onDate :=
  ⟨(c4_nonrecurring_on_date_iff exactReminder2025 ⟨2025, 7, 13⟩ rfl (by decide)
      (by decide)).mpr (by decide),
   fun hc => absurd ((c4_nonrecurring_on_date_iff exactReminder2025 ⟨2025, 7, 12⟩ rfl
      (by decide) (by decide)).mp hc) (by decide)⟩

/-- C6: a reminder whose stored date is strictly after today is excluded by
`getDueReminders` (which keeps only active reminders with
`reminderDate <= today`); every reminder the query does return evaluates to
something other than `AdvanceNotice` (the advance condition needs today to
be strictly before the reminder date); and the daily check therefore creates
no audit entry for a reminder id all of whose stored rows are strictly in
the future. -/
theorem c6_due_query_excludes_advance (cap : String → Bool)
    (users : String → Option User) (today : CalDate) (rs : List Reminder)
    (hT : today.Valid) (hV : ∀ r ∈ rs, r.reminderDate.Valid) :
    (∀ r ∈ rs, dateLe r.reminderDate today = false → r ∉ getDueReminders today rs) ∧
    (∀ r ∈ getDueReminders today rs, evaluate r today ≠ .advanceNotice) ∧
    (∀ rid : Int, (∀ r ∈ rs, r.id = rid → dateLe r.reminderDate today = false) →
      ∀ e ∈ checkAndSendAllReminders cap today rs users, e.reminderId ≠ rid) := by
  refine ⟨?_, ?_, ?_⟩
  · intro r _ hlt hmem
    rw [getDueReminders, List.mem_filter] at hmem
    rw [Bool.and_eq_true] at hmem
    rw [hmem.2.2] at hlt
    exact Bool.noConfusion hlt
  · intro r hr hadv
    rw [getDueReminders, List.mem_filter, Bool.and_eq_true] at hr
    obtain ⟨hrs, _, hle⟩ := hr
    have hA := hV r hrs
    have hcond := (evaluate_advance_iff_cond r today).mp hadv
    rcases hd : r.advanceDays with _ | n
    · simp only [advanceCond, hd] at hcond
      exact Bool.noConfusion hcond
    · simp only [advanceCond, hd] at hcond
      by_cases hpos : 0 < n
      · rw [if_pos hpos] at hcond
        have h1 := (advance_cond_iff r today n hA hT).mp hcond
        have h2 := dayNumber_le_of_dateLe r.reminderDate today hA hT hle
        omega
      · rw [if_neg hpos] at hcond
        exact Bool.noConfusion hcond
  · intro rid hfar e he
    rw [checkAndSendAllReminders, mem_foldr_append] at he
    obtain ⟨r, hrmem, hein⟩ := he
    have hrmem' := hrmem
    rw [getDueReminders, List.mem_filter, Bool.and_eq_true] at hrmem'
    obtain ⟨hrs, _, hle⟩ := hrmem'
    have hne : r.id ≠ rid := by
      intro hc
      rw [hfar r hrs hc] at hle
      exact Bool.noConfusion hle
    rcases hu : users r.userId with _ | u
    · simp only [hu] at hein
      simp at hein
    · simp only [hu] at hein
      by_cases hsend : shouldSend r today = true
      · rw [if_pos hsend] at hein
        rw [sendReminderEmail_reminderId cap u r e hein]
        exact hne
      · rw [if_neg hsend] at hein
        simp at hein

theorem c6_witness :
    futureReminder ∉ getDueReminders ⟨2025, 7, 13⟩ [futureReminder] ∧
    (∀ e ∈ checkAndSendAllReminders alwaysOkCap ⟨2025, 7, 13⟩ [futureReminder]
        singleUserLookup, e.reminderId ≠ 1) :=
  ⟨(c6_due_query_excludes_advance alwaysOkCap singleUserLookup ⟨2025, 7, 13⟩
      [futureReminder] (by decide) (by decide)).1 futureReminder (by decide) (by decide),
   (c6_due_query_excludes_advance alwaysOkCap singleUserLookup ⟨2025, 7, 13⟩
      [futureReminder] (by decide) (by decide)).2.2 1 (by decide)⟩

/-- C3 counterexample: with recipients `[a, b]` and the transport failing on
`a`, the code attempts only `a` (the exception aborts the loop before `b`)
and produces exactly ONE audit entry, with status `failed` and the user's
primary email as address — not the claimed two entries `failed`/`sent` with
both recipients attempted. -/
theorem c3_counterexample :
    (sendReminderEmail failOnA twoRecipientUser exactReminder2025).attempted =
      ["a@example.com"] ∧
    (sendReminderEmail failOnA twoRecipientUser exactReminder2025).entries.map
      (fun e => e.status) = ["failed"] ∧
    (sendReminderEmail failOnA twoRecipientUser exactReminder2025).entries.map
      (fun e => e.emailAddress) = ["owner@example.com"] := by
  decide

/-- C3 amended: when the first recipient's send throws, the whole dispatch
aborts: only that recipient was attempted, no further recipient is tried,
and a single `failed` audit entry is recorded, addressed with the user's
primary email (`user.email || ''`), not the failing recipient. -/
theorem c3_first_failure_aborts_dispatch (cap : String → Bool) (user : User)
    (r : Reminder) (a : String) (rest : List String)
    (hab : (emailAddressesFor user).filter (fun e => !(e == "")) = a :: rest)
    (hlen : (emailAddressesFor user).length ≠ 0)
    (hfail : cap a = false) :
    (sendReminderEmail cap user r).attempted = [a] ∧
    (sendReminderEmail cap user r).entries =
      [⟨user.id, r.id, (match user.email with | some e0 => e0 | none => ""),
        generateSubject r, "failed"⟩] := by
  unfold sendReminderEmail
  rw [if_neg hlen, hab]
  simp [sendLoop, hfail]

theorem c3_witness :
    (sendReminderEmail failOnA twoRecipientUser exactReminder2025).attempted =
      ["a@example.com"] ∧
    (sendReminderEmail failOnA twoRecipientUser exactReminder2025).entries =
      [⟨"u1", 1, "owner@example.com", generateSubject exactReminder2025, "failed"⟩] :=
  c3_first_failure_aborts_dispatch failOnA twoRecipientUser exactReminder2025
    "a@example.com" ["b@example.com"] (by decide) (by decide) (by decide)

/-- C5: in the cronJobs-bundled `sendReminderEmail` variant, when SMTP is
unconfigured no transport send is attempted and one `simulated` audit entry
is produced per recipient. -/
theorem c5_unconfigured_simulates (cap : String → Bool) (user : User) (r : Reminder) :
    (sendReminderEmailDebug false cap user r).attempted = [] ∧
    (sendReminderEmailDebug false cap user r).entries.map (fun e => e.status) =
      List.replicate (emailAddressesFor user).length "simulated" ∧
    (sendReminderEmailDebug false cap user r).entries.length =
      (emailAddressesFor user).length := by
  unfold sendReminderEmailDebug
  by_cases h : (emailAddressesFor user).length = 0
  · rw [if_pos h]
    have he : emailAddressesFor user = [] := List.length_eq_zero.mp h
    rw [he]
    exact ⟨rfl, rfl, rfl⟩
  · rw [if_neg h]
    have hc : (!false) = true := rfl
    rw [if_pos hc]
    exact ⟨rfl, map_status_simulated user.id r.id (generateSubject r) _,
      List.length_map _ _⟩

/-- C7 counterexample: with SMTP unconfigured, the `POST /api/test-reminders`
endpoint returns early and runs no evaluation at all, while the scheduled
daily tick still evaluates and dispatches — here the scheduled tick sends a
due reminder but the endpoint produces nothing. -/
theorem c7_counterexample :
    testRemindersEndpoint false alwaysOkCap ⟨2025, 3, 10⟩ [advanceReminder2025]
      singleUserLookup = none ∧
    scheduledDailyTick alwaysOkCap ⟨2025, 3, 10⟩ [advanceReminder2025]
      singleUserLookup ≠ [] := by
  constructor
  · rfl
  · decide

/-- C7 amended: when SMTP credentials are configured the endpoint invokes
`cronJobService.testReminders()`, which is the very same
`checkAndSendAllReminders` the 5 AM cron runs, so for the same today and
stored reminders the two paths produce identical results; when SMTP is
unconfigured the endpoint returns early without running the check. -/
theorem c7_endpoint_runs_same_tick (cap : String → Bool) (today : CalDate)
    (rs : List Reminder) (users : String → Option User) :
    testRemindersEndpoint true cap today rs users =
      some (scheduledDailyTick cap today rs users) ∧
    testReminders cap today rs users = scheduledDailyTick cap today rs users :=
  ⟨rfl, rfl⟩

/-- C8 counterexample: a birthday reminder with `advanceDays = 3` evaluated
ON its due date (decision `OnDate`) still gets the subject
"🎂 Someone's Birthday in 3 days!", not an "is today" subject: the subject
is generated from the reminder's `advanceDays` field alone, never from the
current firing decision. -/
theorem c8_counterexample :
    evaluate advanceReminder2025 ⟨2025, 3, 10⟩ = FiringDecision.onDate ∧
    generateSubject advanceReminder2025 = "🎂 Someone's Birthday in 3 days!" ∧
    generateSubject advanceReminder2025 ≠ "🎂 Someone's Birthday is today!" := by
  refine ⟨by decide, ?_, by decide⟩
  decide

/-- C8 amended: the subject depends only on the reminder's kind and its
`advanceDays` field: for a birthday reminder with `advanceDays = n > 0` the
subject announces "in n days" even on a call whose firing decision is
`OnDate`. -/
theorem c8_subject_ignores_decision (r : Reminder) (today : CalDate) (n : Int)
    (hk : r.type = "birthday") (hp : r.person = none)
    (hn : r.advanceDays = some n) (hpos : 0 < n)
    (hdec : evaluate r today = .onDate) :
    generateSubject r = "🎂 Someone's Birthday in " ++ toString n ++ " days!" := by
  unfold generateSubject
  rw [hk, hp, hn]
  simp only [if_pos hpos]
  rw [show ("🎂 " ++ "Someone" : String) = "🎂 Someone" from rfl]
  rw [show ("🎂 Someone" ++ "'s Birthday " : String) = "🎂 Someone's Birthday " from rfl]
  rw [String.append_assoc "🎂 Someone's Birthday " ("in " ++ toString n ++ " days") "!"]
  rw [String.append_assoc "in " (toString n) " days"]
  rw [← String.append_assoc "🎂 Someone's Birthday " ("in " ++ (toString n ++ " days")) "!"]
  rw [← String.append_assoc "🎂 Someone's Birthday " "in " (toString n ++ " days")]
  rw [show ("🎂 Someone's Birthday " ++ "in " : String) = "🎂 Someone's Birthday in " from rfl]
  rw [← String.append_assoc "🎂 Someone's Birthday in " (toString n) " days"]
  rw [String.append_assoc ("🎂 Someone's Birthday in " ++ toString n) " days" "!"]
  rw [show (" days" ++ "!" : String) = " days!" from rfl]

theorem c8_witness :
    generateSubject advanceReminder2025 = "🎂 Someone's Birthday in " ++ toString (3 : Int) ++ " days!" :=
  c8_subject_ignores_decision advanceReminder2025 ⟨2025, 3, 10⟩ 3 rfl rfl rfl
    (by norm_num) (by decide)

/-- C9 counterexample: a reminder whose stored date string has month 13 is
not rejected or skipped: `new Date(2025, 12, 1)` rolls over to 2026-01-01
and the reminder is evaluated against that date — on 2026-01-01 it even
fires `OnDate`.  No `InvalidDateFormat` error exists anywhere in the tick. -/
theorem c9_counterexample : evaluate month13Reminder ⟨2026, 1, 1⟩ = FiringDecision.onDate := by
  decide

/-- C9 amended: the tick performs no validation of the parsed date
components; out-of-range components are normalised by JS `Date` rollover
(month 13 of year y becomes January of year y+1) and the reminder is
evaluated against the rolled-over date — firing `OnDate` on that date —
rather than being skipped with an `InvalidDateFormat` error. -/
theorem c9_month13_rolls_over (r : Reminder) (y : Int)
    (hdate : r.reminderDate = ⟨y, 13, 1⟩) (hadv : r.advanceDays = none) :
    evaluate r ⟨y + 1, 1, 1⟩ = .onDate := by
  have hmk : parsedReminderDate r = ⟨y + 1, 1, 1⟩ := by
    unfold parsedReminderDate
    rw [hdate]
    show mkJSDate y 13 1 = ⟨y + 1, 1, 1⟩
    unfold mkJSDate
    norm_num
    have hdim : (1 : Int) ≤ daysInMonth (y + 1) 1 := by
      unfold daysInMonth
      norm_num
    have := civilFromDays_daysFromCivil (y + 1) 1 1 (by norm_num) (by norm_num)
      (by norm_num) hdim
    exact this
  unfold evaluate
  have hcond : advanceCond r ⟨y + 1, 1, 1⟩ = false := by
    simp only [advanceCond, hadv]
  rw [hcond]
  simp only [Bool.false_eq_true, if_false]
  rw [hmk]
  simp [isSameDay]

theorem c9_witness : evaluate month13Reminder ⟨2026, 1, 1⟩ = FiringDecision.onDate :=
  c9_month13_rolls_over month13Reminder 2025 rfl rfl

/-- C10: the claim says a recurring reminder anchored on Feb 29 fires
`OnDate` on Feb 28 of a non-leap year.  The code has no year substitution
and no leap-day policy at all: with anchor "2000-02-29" and
today = 2025-02-28 the evaluation fires nothing; the reminder fires only on
the literal anchor date 2000-02-29. -/
theorem c10_no_leap_day_policy :
    evaluate leapDayReminder ⟨2025, 2, 28⟩ = FiringDecision.noFire ∧
    evaluate leapDayReminder ⟨2000, 2, 29⟩ = FiringDecision.onDate := by
  decide
